import Mathlib

/-!
Shallow embedding of
`scaling_transformer_inference_efficiency/xmap_transformer_exporter.py`.

The exporter stages two entry points of a distributed transformer: an
`init` function producing random parameters and a token chunk, and a
`fwd` function running the weight-stationary layer stack. The embedding
models jax arrays symbolically (a `Tensor` records which constructor
produced it, its shape and its dtype), makes the ambient
`with rules:` partitioning context explicit as an `Env` value threaded
through the functions, and records calls into external collaborators
(`pjit(...).lower`, `inference.infer_xmap`) as plain data so their
arguments can be inspected. Collaborator modules that are not part of
this file (`checkpoint`, `weights`, `chunk`, `partitioning`) are
modelled from the specification; those definitions say so in their doc
comments.
-/

namespace XmapExporter

/-- Numeric dtypes used by the exporter (`jnp.float32` for weights and
activations, integer dtype for tokens and lengths). -/
inductive DType where
  | float32
  | int32
deriving DecidableEq, Repr

/-- Symbolic jax array values: exactly the array constructors the
exporter's `model_init` uses. `normal key shape dtype` is
`jax.random.normal(key, shape, dtype)`; `ones shape dtype` is
`jnp.ones(shape, dtype)`. -/
inductive Tensor where
  | normal (key : Nat) (shape : List Nat) (dtype : DType)
  | ones (shape : List Nat) (dtype : DType)
deriving DecidableEq, Repr

def Tensor.shape : Tensor → List Nat
  | .normal _ s _ => s
  | .ones s _ => s

def Tensor.dtype : Tensor → DType
  | .normal _ _ d => d
  | .ones _ d => d

/-- Abstract shape/dtype skeleton, as produced by `jax.eval_shape`:
it keeps the shape and dtype of an array and forgets its contents. -/
structure ShapeDtypeStruct where
  shape : List Nat
  dtype : DType
deriving DecidableEq, Repr

def Tensor.evalShape (t : Tensor) : ShapeDtypeStruct :=
  { shape := t.shape, dtype := t.dtype }

/-- Deterministic model of the jax PRNG: a key is a `Nat` and
`jax.random.PRNGKey(seed)` is a pure function of the seed. -/
def prngKey (seed : Nat) : Nat := seed

/-- Deterministic model of `jax.random.split(key, n)`: the `n` child
keys are a pure function of the parent key. -/
def splitKey (key n : Nat) : List Nat :=
  (List.range n).map (fun i => 2 ^ 20 * key + i + 1)

/-- Modelled from the spec: `checkpoint.HParams` (not under `src/`), an
immutable record of the seven model hyperparameters plus the derived
per-head projection widths `q_wi_per_head` and `o_wo_per_head`,
computed once at construction. -/
structure HParams where
  layers : Nat
  embed : Nat
  ff : Nat
  heads : Nat
  qkv : Nat
  max_len : Nat
  vocab : Nat
  q_wi_per_head : Nat
  o_wo_per_head : Nat
deriving DecidableEq, Repr

/-- Modelled from the spec: the `checkpoint.HParams` constructor. The
spec leaves the exact arithmetic of the derived widths open (design
note on the fused query+gate convention), so the model fixes one
internally consistent convention; no theorem below depends on it. -/
def HParams.make (layers embed ff heads qkv max_len vocab : Nat) : HParams :=
  { layers := layers, embed := embed, ff := ff, heads := heads, qkv := qkv,
    max_len := max_len, vocab := vocab,
    q_wi_per_head := qkv + 2 * (ff / heads),
    o_wo_per_head := ff / heads }

/-- Per-layer weights container, mirroring `weights.Layer(q_wi, kv, o_wo)`.
Parameterised by the payload so the same pytree structure carries
values, logical axes, shardings and shape skeletons. -/
structure Layer (α : Type) where
  q_wi : α
  kv : α
  o_wo : α
deriving DecidableEq, Repr

/-- Weights container, mirroring
`weights.Weights(layer, sin, cos, embedding)`. -/
structure WeightsT (α : Type) where
  layer : Layer α
  sin : α
  cos : α
  embedding : α
deriving DecidableEq, Repr

/-- Chunk pytree structure (`chunk.Chunk(tokens, lengths)`), used for
logical axes, shardings and shape skeletons. -/
structure ChunkT (α : Type) where
  tokens : α
  lengths : α
deriving DecidableEq, Repr

/-- FullChunkResult pytree structure: per-token output logits. -/
structure FullChunkResultT (α : Type) where
  logits : α
deriving DecidableEq, Repr

def Layer.map (f : α → β) (l : Layer α) : Layer β :=
  { q_wi := f l.q_wi, kv := f l.kv, o_wo := f l.o_wo }

/-- `jax.tree_util.tree_map` over the Weights pytree. -/
def WeightsT.map (f : α → β) (w : WeightsT α) : WeightsT β :=
  { layer := w.layer.map f, sin := f w.sin, cos := f w.cos,
    embedding := f w.embedding }

/-- `jax.tree_util.tree_map` over the Chunk pytree. -/
def ChunkT.map (f : α → β) (c : ChunkT α) : ChunkT β :=
  { tokens := f c.tokens, lengths := f c.lengths }

/-- `jax.tree_util.tree_map` over the FullChunkResult pytree. -/
def FullChunkResultT.map (f : α → β) (r : FullChunkResultT α) : FullChunkResultT β :=
  { logits := f r.logits }

/-- Logical axis names appearing in the containers' annotations. -/
inductive LogicalAxis where
  | layers
  | heads
  | embed
  | qkv
  | vocab
  | batch
  | time
deriving DecidableEq, Repr

/-- The three named mesh axes of the 3D device mesh. -/
inductive MeshAxis where
  | x
  | y
  | z
deriving DecidableEq, Repr

/-- Physical target of one tensor dimension: a single mesh axis, an
ordered tuple of mesh axes, or replicated. -/
inductive MeshTarget where
  | single (a : MeshAxis)
  | tuple (l : List MeshAxis)
  | replicated
deriving DecidableEq, Repr

/-- A `PartitionSpec`-style annotation: per tensor dimension, a logical
axis name or `None`. -/
abbrev LogicalAxes := List (Option LogicalAxis)

abbrev PhysicalSharding := List MeshTarget

/-- Partitioning rule table: logical axis name to physical target. -/
abbrev RuleTable := List (LogicalAxis × MeshTarget)

def lookupRule (rules : RuleTable) (name : LogicalAxis) : MeshTarget :=
  match rules.find? (fun p => p.1 == name) with
  | some p => p.2
  | none => MeshTarget.replicated

/-- Modelled from the spec: `partitioning.logical_to_physical` (not
under `src/`), the sharding resolver. Each annotated dimension is
resolved through the rule table; an unannotated (`None`) dimension is
fully replicated. The ambient rules context the Python version reads
is the explicit `rules` argument here. -/
def logical_to_physical (rules : RuleTable) (ax : LogicalAxes) : PhysicalSharding :=
  ax.map fun o =>
    match o with
    | none => MeshTarget.replicated
    | some n => lookupRule rules n

/-- Modelled from the spec: `partitioning.AttnAllToAll`, the closed
enumeration of attention all-to-all strategies — the six orderings of
the mesh axes. The exporter selects `AXES_YZX`. -/
inductive AttnAllToAll where
  | AXES_XYZ
  | AXES_XZY
  | AXES_YXZ
  | AXES_YZX
  | AXES_ZXY
  | AXES_ZYX
deriving DecidableEq, Repr

def axisOrder : AttnAllToAll → MeshAxis × MeshAxis × MeshAxis
  | .AXES_XYZ => (.x, .y, .z)
  | .AXES_XZY => (.x, .z, .y)
  | .AXES_YXZ => (.y, .x, .z)
  | .AXES_YZX => (.y, .z, .x)
  | .AXES_ZXY => (.z, .x, .y)
  | .AXES_ZYX => (.z, .y, .x)

/-- Modelled from the spec: `partitioning.make_rules_two_d` (not under
`src/`), the partitioning rule engine. It is a pure function of the
attention strategy and the `batch_unsharded` flag, producing one
conflict-free table per call. -/
def make_rules_two_d (s : AttnAllToAll) (batch_unsharded : Bool) : RuleTable :=
  let p := axisOrder s
  [(LogicalAxis.layers, MeshTarget.replicated),
   (LogicalAxis.heads, MeshTarget.tuple [p.1, p.2.1]),
   (LogicalAxis.embed, MeshTarget.single p.2.2),
   (LogicalAxis.qkv, MeshTarget.replicated),
   (LogicalAxis.vocab, MeshTarget.tuple [p.1, p.2.1]),
   (LogicalAxis.time, MeshTarget.replicated),
   (LogicalAxis.batch,
     if batch_unsharded then MeshTarget.replicated else MeshTarget.single p.2.2)]

/-- Modelled from the spec: `partitioning.PartitioningRules`, the
context-manager wrapper around a rule table. Entering the context
installs the table as the ambient rules; the embedding keeps the table
itself. -/
def PartitioningRules (t : RuleTable) : RuleTable := t

/-- Modelled from the spec: `weights.Weights.logical_axes()` (not under
`src/`): the per-dimension logical axis annotation of every weight
tensor — a symbolic name per shardable dimension, `None` elsewhere. -/
def weightsLogicalAxes : WeightsT LogicalAxes :=
  { layer :=
      { q_wi := [some .layers, some .heads, some .embed, some .qkv],
        kv := [some .layers, some .embed, none, some .qkv],
        o_wo := [some .layers, some .heads, some .qkv, some .embed] },
    sin := [none, none],
    cos := [none, none],
    embedding := [some .vocab, some .embed] }

/-- Modelled from the spec: `chunk.FullChunkResult.logical_axes()` (not
under `src/`): the annotation of the per-token output logits
`[batch, seq_len, vocab]`. -/
def fullChunkResultLogicalAxes : FullChunkResultT LogicalAxes :=
  { logits := [some .batch, some .time, some .vocab] }

/-- Named 3D device mesh: `jax.experimental.maps.Mesh(devices, names)`,
kept as its shape and axis names. -/
structure Mesh where
  shape : List Nat
  axis_names : List String
deriving DecidableEq, Repr

/-- Concrete token chunk: `chunk.Chunk(tokens, lengths)` with integer
contents, as built by `model_init`. -/
structure Chunk where
  tokens : List (List Nat)
  lengths : List Nat
deriving DecidableEq, Repr

/-- `jnp.arange n`. -/
def arange (n : Nat) : List Nat := List.range n

/-- `jnp.reshape(l, (rows, cols))` for a flat integer vector. -/
def reshape2 (l : List Nat) (rows cols : Nat) : List (List Nat) :=
  (List.range rows).map fun i => (l.drop (i * cols)).take cols

/-- One KV-cache entry: accumulated key and value tensors for a layer. -/
structure KVCacheEntry where
  k : Tensor
  v : Tensor
deriving DecidableEq, Repr

/-- Ambient process state the Python functions can read without taking
it as an argument: the partitioning rules installed by a
`with rules:` context manager, and an ambient seed standing for any
process-level randomness. The embedding threads it explicitly. -/
structure Env where
  rules : RuleTable
  ambient_seed : Nat
deriving DecidableEq, Repr

/-- `model_init` from `setup`: seeds a PRNG with `jax.random.PRNGKey(0)`,
splits it, draws the weight tensors at the shapes prescribed by the
hyperparameters, and builds the token chunk from
`jnp.arange(batch_size * seq_len)` reshaped to `[batch_size, seq_len]`
with `lengths = [seq_len] * batch_size`. It reads nothing from the
ambient environment. -/
def model_init (env : Env) (h : HParams) (dtype : DType) (batch_size seq_len : Nat) :
    WeightsT Tensor × Chunk :=
  let key := prngKey 0
  let ks := splitKey key 5
  let k2 := ks.getD 1 0
  let k3 := ks.getD 2 0
  let k4 := ks.getD 3 0
  let k5 := ks.getD 4 0
  let q_wi := Tensor.normal k2 [h.layers, h.heads, h.embed, h.q_wi_per_head] dtype
  let kv := Tensor.normal k3 [h.layers, h.embed, 1, 2 * h.qkv] dtype
  let o_wo := Tensor.normal k4 [h.layers, h.heads, h.o_wo_per_head, h.embed] dtype
  let embedding := Tensor.normal k5 [h.vocab, h.embed] dtype
  let sin := Tensor.ones [h.max_len, h.qkv / 2] dtype
  let cos := Tensor.ones [h.max_len, h.qkv / 2] dtype
  let params_pjit : WeightsT Tensor :=
    { layer := { q_wi := q_wi, kv := kv, o_wo := o_wo },
      sin := sin, cos := cos, embedding := embedding }
  let token_chunk : Chunk :=
    { tokens := reshape2 (arange (batch_size * seq_len)) batch_size seq_len,
      lengths := List.replicate batch_size seq_len }
  (params_pjit, token_chunk)

/-- `jax.eval_shape(model_init)` on the weights component. -/
def eval_shape_weights (w : WeightsT Tensor) : WeightsT ShapeDtypeStruct :=
  w.map Tensor.evalShape

/-- `jax.eval_shape(model_init)` on the chunk component. -/
def eval_shape_chunk (c : Chunk) : ChunkT ShapeDtypeStruct :=
  { tokens := { shape := [c.tokens.length, (c.tokens.headD []).length],
                dtype := DType.int32 },
    lengths := { shape := [c.lengths.length], dtype := DType.int32 } }

/-- Record of `pjit(model_init, out_axis_resources=...).lower()`: the
lowered init artifact keeps the output shardings requested and the
value the staged function produces. -/
structure LoweredInit where
  out_axis_resources : WeightsT PhysicalSharding × ChunkT PhysicalSharding
  result : WeightsT Tensor × Chunk
deriving DecidableEq, Repr

/-- The 11-tuple returned by `setup`, with fields in return order.
`params_pjit_shape_fifth` and `params_pjit_shape_sixth` are the 5th and
6th elements, both `params_pjit_shape` in the source. -/
structure SetupResult where
  model_init_lowered : LoweredInit
  dtype : DType
  h : HParams
  mesh : Mesh
  params_pjit_shape_fifth : WeightsT ShapeDtypeStruct
  params_pjit_shape_sixth : WeightsT ShapeDtypeStruct
  kv_caches : List KVCacheEntry
  token_chunk_shape : ChunkT ShapeDtypeStruct
  chunk_sharding : ChunkT PhysicalSharding
  params_sharding : WeightsT PhysicalSharding
  result_sharding : FullChunkResultT PhysicalSharding
deriving DecidableEq, Repr

/-- Default value of `setup`'s `seq_len` parameter. -/
def setup_default_seq_len : Nat := 32

/-- `setup(mesh, batch_size, seq_len=32)`: builds the HParams, resolves
the shardings of Weights, Chunk and FullChunkResult through the
ambient rule table (`env.rules`), stages `model_init` under `pjit`,
takes `jax.eval_shape(model_init)`, and returns the 11-tuple. -/
def setup (env : Env) (mesh : Mesh) (batch_size seq_len : Nat) : SetupResult :=
  let dtype := DType.float32
  let h := HParams.make 8 16 32 16 4 256 1024
  let params_logical := weightsLogicalAxes
  let chunk_logical : ChunkT LogicalAxes := { tokens := [none, none], lengths := [none] }
  let params_sharding := params_logical.map (logical_to_physical env.rules)
  let chunk_sharding := chunk_logical.map (logical_to_physical env.rules)
  let result_logical := fullChunkResultLogicalAxes
  let result_sharding := result_logical.map (logical_to_physical env.rules)
  let mi := model_init env h dtype batch_size seq_len
  let model_init_lowered : LoweredInit :=
    { out_axis_resources := (params_sharding, chunk_sharding), result := mi }
  let params_pjit_shape := eval_shape_weights mi.1
  let token_chunk_shape := eval_shape_chunk mi.2
  let kv_caches : List KVCacheEntry := []
  { model_init_lowered := model_init_lowered,
    dtype := dtype,
    h := h,
    mesh := mesh,
    params_pjit_shape_fifth := params_pjit_shape,
    params_pjit_shape_sixth := params_pjit_shape,
    kv_caches := kv_caches,
    token_chunk_shape := token_chunk_shape,
    chunk_sharding := chunk_sharding,
    params_sharding := params_sharding,
    result_sharding := result_sharding }

/-- Record of the argument list `fwd` passes to
`inference.infer_xmap`: hyperparameters, the layer executor, the KV
caches closed over from `setup`, and the strategy flags. The `params`
and `token_chunk` runtime inputs are the lowered function's arguments
and are recorded separately in `LoweredFwd.lower_args`. -/
structure InferArgs where
  h : HParams
  layer_fn : String
  kv_caches : List KVCacheEntry
  attn_all_to_all : AttnAllToAll
  latency_collectives : Bool
  shard_seqlen_vs_batch : Bool
  batch_unsharded : Bool
  intermediate_dtype : DType
deriving DecidableEq, Repr

/-- Record of `pjit(pjit_fwd, ...).lower(rotated_params, token_chunk)`:
the call into `infer_xmap`, the `shard_map` in/out specs, the pjit
in/out axis resources, and the abstract arguments the artifact was
lowered at. -/
structure LoweredFwd where
  call : InferArgs
  shard_map_in_specs : WeightsT PhysicalSharding × ChunkT PhysicalSharding
  shard_map_out_specs : FullChunkResultT PhysicalSharding
  in_axis_resources : WeightsT PhysicalSharding × ChunkT PhysicalSharding
  out_axis_resources : FullChunkResultT PhysicalSharding
  lower_args : WeightsT ShapeDtypeStruct × ChunkT ShapeDtypeStruct
deriving DecidableEq, Repr

/-- A lowered entry point returned by `lower`. -/
inductive LoweredEntry where
  | init (l : LoweredInit)
  | fwd (l : LoweredFwd)
deriving DecidableEq, Repr

/-- The mesh `lower` builds: `fake_devices(8).reshape((2, 2, 2))` with
axis names `('x', 'y', 'z')`. -/
def lower_mesh : Mesh := { shape := [2, 2, 2], axis_names := ["x", "y", "z"] }

/-- `batch_unsharded = False` in `lower`. -/
def lower_batch_unsharded : Bool := false

/-- `attn_sharding = partitioning.AttnAllToAll.AXES_YZX` in `lower`. -/
def lower_attn_sharding : AttnAllToAll := AttnAllToAll.AXES_YZX

/-- The single rule table `lower` builds:
`partitioning.PartitioningRules(make_rules_two_d(attn_sharding, batch_unsharded))`. -/
def lower_rules : RuleTable :=
  PartitioningRules (make_rules_two_d lower_attn_sharding lower_batch_unsharded)

/-- The `setup` call inside `lower`: performed under `with rules:` (so
the ambient rules are `lower_rules`), with `batch_size=8` and the
default `seq_len`. -/
def lower_setup (env : Env) : SetupResult :=
  setup { env with rules := lower_rules } lower_mesh 8 setup_default_seq_len

/-- The argument record of the `inference.infer_xmap` call inside
`fwd`. -/
def lower_fwd_call (env : Env) : InferArgs :=
  let s := lower_setup env
  { h := s.h,
    layer_fn := "transformer_layer_weight_stationary",
    kv_caches := s.kv_caches,
    attn_all_to_all := lower_attn_sharding,
    latency_collectives := false,
    shard_seqlen_vs_batch := false,
    batch_unsharded := lower_batch_unsharded,
    intermediate_dtype := s.dtype }

/-- The lowered forward artifact: `shard_map(fwd, mesh, in_specs,
out_specs)` wrapped in `pjit` and lowered at
`(rotated_params, token_chunk)` — the 6th and 8th elements of the
`setup` tuple, both abstract shape skeletons. -/
def lower_fwd_entry (env : Env) : LoweredFwd :=
  let s := lower_setup env
  { call := lower_fwd_call env,
    shard_map_in_specs := (s.params_sharding, s.chunk_sharding),
    shard_map_out_specs := s.result_sharding,
    in_axis_resources := (s.params_sharding, s.chunk_sharding),
    out_axis_resources := s.result_sharding,
    lower_args := (s.params_pjit_shape_sixth, s.token_chunk_shape) }

/-- `lower()`: the exported list of named lowered entry points. -/
def lower (env : Env) : List (String × LoweredEntry) :=
  [("xmap_transformer_init", LoweredEntry.init (lower_setup env).model_init_lowered),
   ("xmap_transformer_fwd", LoweredEntry.fwd (lower_fwd_entry env))]

/-- The hyperparameters `setup` constructs, as a standalone value for
concrete evaluation. -/
def h0 : HParams := HParams.make 8 16 32 16 4 256 1024

/-- A concrete ambient environment with an empty rule table. -/
def env_a : Env := { rules := [], ambient_seed := 0 }

/-- A concrete ambient environment with a different rule table and a
different ambient seed. -/
def env_b : Env :=
  { rules := [(LogicalAxis.heads, MeshTarget.single MeshAxis.x)], ambient_seed := 5 }

/-! Helper lemmas about `reshape2` applied to `arange`, used to settle
the token-chunk claims. -/

theorem getD_map_range {β : Type} (f : Nat → β) (n i : Nat) (d : β) (hi : i < n) :
    ((List.range n).map f).getD i d = f i := by
  rw [List.getD_eq_getElem?_getD, List.getElem?_map, List.getElem?_range hi]
  rfl

theorem reshape2_row (bs sl i : Nat) (hi : i < bs) :
    (reshape2 (arange (bs * sl)) bs sl).getD i [] =
      ((List.range (bs * sl)).drop (i * sl)).take sl := by
  unfold reshape2 arange
  exact getD_map_range _ bs i [] hi

theorem reshape2_row_length (bs sl i : Nat) (hi : i < bs) :
    ((reshape2 (arange (bs * sl)) bs sl).getD i []).length = sl := by
  rw [reshape2_row bs sl i hi]
  rw [List.length_take, List.length_drop, List.length_range]
  have h0 : i + 1 ≤ bs := hi
  have h1 : (i + 1) * sl ≤ bs * sl := mul_le_mul_right' h0 sl
  rw [Nat.succ_mul] at h1
  rw [inf_eq_left]
  omega

theorem reshape2_entry (bs sl i j : Nat) (hi : i < bs) (hj : j < sl) :
    (((reshape2 (arange (bs * sl)) bs sl).getD i []).getD j 0) = i * sl + j := by
  rw [reshape2_row bs sl i hi]
  rw [List.getD_eq_getElem?_getD, List.getElem?_take, if_pos hj, List.getElem?_drop]
  have h0 : i + 1 ≤ bs := hi
  have h1 : (i + 1) * sl ≤ bs * sl := mul_le_mul_right' h0 sl
  rw [Nat.succ_mul] at h1
  have hlt : i * sl + j < bs * sl := by omega
  rw [List.getElem?_range hlt]
  rfl

/-! Claim theorems. -/

/-- C1: the exporter realises the end-to-end configuration: `setup`
constructs HParams with layers=8, embed=16, ff=32, heads=16, qkv=4,
max_len=256, vocab=1024; `lower` builds a mesh of shape (2,2,2) with
axis names ('x','y','z'), calls `setup` under the rules context with
`batch_size=8` and the default `seq_len=32`, and returns exactly the
two lowered entry points 'xmap_transformer_init' and
'xmap_transformer_fwd', the forward one carrying the output sharding
resolved from the FullChunkResult logical-axis contract. -/
theorem lower_end_to_end_configuration (env : Env) (m : Mesh) (bs sl : Nat) :
    ((setup env m bs sl).h.layers = 8 ∧ (setup env m bs sl).h.embed = 16 ∧
      (setup env m bs sl).h.ff = 32 ∧ (setup env m bs sl).h.heads = 16 ∧
      (setup env m bs sl).h.qkv = 4 ∧ (setup env m bs sl).h.max_len = 256 ∧
      (setup env m bs sl).h.vocab = 1024) ∧
    (lower_mesh.shape = [2, 2, 2] ∧ lower_mesh.axis_names = ["x", "y", "z"]) ∧
    (lower_setup env = setup { env with rules := lower_rules } lower_mesh 8 setup_default_seq_len ∧
      setup_default_seq_len = 32) ∧
    (lower env).map Prod.fst = ["xmap_transformer_init", "xmap_transformer_fwd"] ∧
    (lower_fwd_entry env).out_axis_resources =
      FullChunkResultT.map (logical_to_physical lower_rules) fullChunkResultLogicalAxes :=
  ⟨⟨rfl, rfl, rfl, rfl, rfl, rfl, rfl⟩, ⟨rfl, rfl⟩, ⟨rfl, rfl⟩, rfl, rfl⟩

/-- C3: inside `lower`, the physical shardings of the Weights
parameters, the input Chunk and the output FullChunkResult are all
obtained by mapping the same resolver `logical_to_physical` under the
single rule table `lower_rules` built once in `lower` — no container's
sharding is derived from a different table. -/
theorem shardings_from_one_rule_table (env : Env) :
    (lower_setup env).params_sharding =
      WeightsT.map (logical_to_physical lower_rules) weightsLogicalAxes ∧
    (lower_setup env).chunk_sharding =
      ChunkT.map (logical_to_physical lower_rules)
        (ChunkT.mk [none, none] [none]) ∧
    (lower_setup env).result_sharding =
      FullChunkResultT.map (logical_to_physical lower_rules) fullChunkResultLogicalAxes ∧
    lower_rules = PartitioningRules (make_rules_two_d lower_attn_sharding lower_batch_unsharded) :=
  ⟨rfl, rfl, rfl, rfl⟩

/-- C4: the attention strategy and batch_unsharded flag passed to the
layer executor call (`inference.infer_xmap`) are the same values used
to build the partitioning rule table via `make_rules_two_d`. -/
theorem rules_and_executor_flags_agree (env : Env) :
    ((lower_fwd_call env).attn_all_to_all, (lower_fwd_call env).batch_unsharded) =
      (lower_attn_sharding, lower_batch_unsharded) ∧
    lower_rules =
      PartitioningRules
        (make_rules_two_d (lower_fwd_call env).attn_all_to_all
          (lower_fwd_call env).batch_unsharded) ∧
    (lower_fwd_entry env).call = lower_fwd_call env :=
  ⟨rfl, rfl, rfl⟩

/-- C5: `model_init` constructs every weight tensor with the shape the
data model prescribes, all read from the HParams record: q_wi is
[layers, heads, embed, q_wi_per_head], kv is [layers, embed, 1, 2*qkv],
o_wo is [layers, heads, o_wo_per_head, embed], sin and cos are
[max_len, qkv/2], and embedding is [vocab, embed]. -/
theorem model_init_weight_shapes (env : Env) (h : HParams) (d : DType) (bs sl : Nat) :
    (model_init env h d bs sl).1.layer.q_wi.shape =
      [h.layers, h.heads, h.embed, h.q_wi_per_head] ∧
    (model_init env h d bs sl).1.layer.kv.shape = [h.layers, h.embed, 1, 2 * h.qkv] ∧
    (model_init env h d bs sl).1.layer.o_wo.shape =
      [h.layers, h.heads, h.o_wo_per_head, h.embed] ∧
    (model_init env h d bs sl).1.sin.shape = [h.max_len, h.qkv / 2] ∧
    (model_init env h d bs sl).1.cos.shape = [h.max_len, h.qkv / 2] ∧
    (model_init env h d bs sl).1.embedding.shape = [h.vocab, h.embed] :=
  ⟨rfl, rfl, rfl, rfl, rfl, rfl⟩

/-- C7: the KV cache starts empty — the `kv_caches` value created in
`setup` is the empty list, and it is the cache argument recorded in the
`infer_xmap` call of the lowered forward function. -/
theorem kv_cache_starts_empty (env : Env) :
    (lower_setup env).kv_caches = ([] : List KVCacheEntry) ∧
    (lower_fwd_call env).kv_caches = (lower_setup env).kv_caches :=
  ⟨rfl, rfl⟩

/-- C8: every Chunk constructed by `model_init` satisfies the Chunk
invariant: tokens has `batch_size` rows of length `seq_len`, lengths is
the constant vector `[seq_len] * batch_size`, so `lengths[i] = seq_len`
(hence `lengths[i] <= seq_len`) for every row `i`. -/
theorem chunk_lengths_within_seq_len (env : Env) (h : HParams) (d : DType)
    (bs sl i : Nat) (hi : i < bs) :
    (model_init env h d bs sl).2.tokens.length = bs ∧
    ((model_init env h d bs sl).2.tokens.getD i []).length = sl ∧
    (model_init env h d bs sl).2.lengths = List.replicate bs sl ∧
    (model_init env h d bs sl).2.lengths.getD i 0 = sl ∧
    (model_init env h d bs sl).2.lengths.getD i 0 ≤ sl := by
  have hrep : (List.replicate bs sl).getD i 0 = sl := by
    rw [List.getD_eq_getElem?_getD, List.getElem?_replicate, if_pos hi]
    rfl
  refine ⟨?_, reshape2_row_length bs sl i hi, rfl, hrep, ?_⟩
  · show (reshape2 (arange (bs * sl)) bs sl).length = bs
    simp [reshape2]
  · show (List.replicate bs sl).getD i 0 ≤ sl
    rw [hrep]

/-- C8 witness: the invariant evaluated at batch_size=2, seq_len=3,
row 1. -/
theorem chunk_lengths_within_seq_len_witness :
    (model_init env_a h0 DType.float32 2 3).2.tokens.length = 2 ∧
    ((model_init env_a h0 DType.float32 2 3).2.tokens.getD 1 []).length = 3 ∧
    (model_init env_a h0 DType.float32 2 3).2.lengths = List.replicate 2 3 ∧
    (model_init env_a h0 DType.float32 2 3).2.lengths.getD 1 0 = 3 ∧
    (model_init env_a h0 DType.float32 2 3).2.lengths.getD 1 0 ≤ 3 :=
  chunk_lengths_within_seq_len env_a h0 DType.float32 2 3 1 (by decide)

/-- C9: `model_init` is deterministic — its result is independent of
the ambient environment, its weight tensors are seeded from the fixed
`PRNGKey(0)`, and its token chunk is `arange(batch_size * seq_len)`
reshaped, so `tokens[i][j] = i * seq_len + j`. -/
theorem model_init_deterministic (env env' : Env) (h : HParams) (d : DType)
    (bs sl i j : Nat) (hi : i < bs) (hj : j < sl) :
    model_init env h d bs sl = model_init env' h d bs sl ∧
    (model_init env h d bs sl).1.layer.q_wi =
      Tensor.normal ((splitKey (prngKey 0) 5).getD 1 0)
        [h.layers, h.heads, h.embed, h.q_wi_per_head] d ∧
    ((model_init env h d bs sl).2.tokens.getD i []).getD j 0 = i * sl + j := by
  refine ⟨rfl, rfl, ?_⟩
  show (((reshape2 (arange (bs * sl)) bs sl).getD i []).getD j 0) = i * sl + j
  exact reshape2_entry bs sl i j hi hj

/-- C9 witness: two different ambient environments, batch_size=2,
seq_len=3, token position (1,2). -/
theorem model_init_deterministic_witness :
    model_init env_a h0 DType.float32 2 3 = model_init env_b h0 DType.float32 2 3 ∧
    (model_init env_a h0 DType.float32 2 3).1.layer.q_wi =
      Tensor.normal ((splitKey (prngKey 0) 5).getD 1 0)
        [h0.layers, h0.heads, h0.embed, h0.q_wi_per_head] DType.float32 ∧
    ((model_init env_a h0 DType.float32 2 3).2.tokens.getD 1 []).getD 2 0 = 1 * 3 + 2 :=
  model_init_deterministic env_a env_b h0 DType.float32 2 3 1 2 (by decide) (by decide)

/-- C10: the 5th and 6th elements of the `setup` tuple are the same
`params_pjit_shape` produced by `jax.eval_shape(model_init)`; the
lowered forward artifact is lowered at that abstract shape skeleton
(together with the token-chunk skeleton), and `eval_shape` depends only
on shape and dtype, never on tensor contents. -/
theorem lowered_fwd_depends_only_on_shapes (env : Env) (t1 t2 : Tensor)
    (hs : t1.shape = t2.shape) (hd : t1.dtype = t2.dtype) :
    (lower_setup env).params_pjit_shape_fifth = (lower_setup env).params_pjit_shape_sixth ∧
    (lower_setup env).params_pjit_shape_sixth =
      eval_shape_weights (lower_setup env).model_init_lowered.result.1 ∧
    (lower_fwd_entry env).lower_args =
      ((lower_setup env).params_pjit_shape_sixth, (lower_setup env).token_chunk_shape) ∧
    Tensor.evalShape t1 = Tensor.evalShape t2 := by
  refine ⟨rfl, rfl, rfl, ?_⟩
  simp [Tensor.evalShape, hs, hd]

/-- C10 witness: two tensors of equal shape and dtype but different PRNG
keys have the same `eval_shape` skeleton. -/
theorem lowered_fwd_depends_only_on_shapes_witness :
    (lower_setup env_a).params_pjit_shape_fifth = (lower_setup env_a).params_pjit_shape_sixth ∧
    (lower_setup env_a).params_pjit_shape_sixth =
      eval_shape_weights (lower_setup env_a).model_init_lowered.result.1 ∧
    (lower_fwd_entry env_a).lower_args =
      ((lower_setup env_a).params_pjit_shape_sixth, (lower_setup env_a).token_chunk_shape) ∧
    Tensor.evalShape (Tensor.normal 0 [4, 4] DType.float32) =
      Tensor.evalShape (Tensor.normal 99 [4, 4] DType.float32) :=
  lowered_fwd_depends_only_on_shapes env_a
    (Tensor.normal 0 [4, 4] DType.float32) (Tensor.normal 99 [4, 4] DType.float32) rfl rfl

/-- C6 counterexample: two runs of `setup` with identical mesh,
batch_size and seq_len but different ambient rule tables produce
different parameter shardings — `setup` resolves shardings through the
ambient partitioning context installed by `with rules:`, not through an
explicit rule-table argument. -/
theorem setup_reads_ambient_rules :
    (setup env_a lower_mesh 8 32).params_sharding ≠
      (setup env_b lower_mesh 8 32).params_sharding := by
  decide

/-- C6 (amended): `setup`'s result is a function of the ambient rule
table and its explicit arguments only — two runs under equal ambient
rules yield identical results (in particular identical shardings),
whatever the rest of the ambient state is. -/
theorem setup_deterministic_given_rules (env env' : Env) (m : Mesh)
    (bs sl : Nat) (hr : env.rules = env'.rules) :
    setup env m bs sl = setup env' m bs sl := by
  cases env with
  | mk r s =>
    cases env' with
    | mk r' s' =>
      have hrr : r = r' := hr
      subst hrr
      rfl

/-- C6 witness: two environments sharing a rule table but differing in
the rest of the ambient state. -/
theorem setup_deterministic_given_rules_witness :
    setup { rules := [], ambient_seed := 0 } lower_mesh 8 32 =
      setup { rules := [], ambient_seed := 99 } lower_mesh 8 32 :=
  setup_deterministic_given_rules
    { rules := [], ambient_seed := 0 } { rules := [], ambient_seed := 99 }
    lower_mesh 8 32 rfl

end XmapExporter
